import Mathlib

/-!
Shallow embedding of the character render system of the midgarts repository
(`internal/system/character_render_system.go`), covering the direction
resolver, the animation clock (frame selection), the layer compositor with
offset chaining, and the per-character attachment draw order.

Conventions of the embedding:
  * Go `int`/`int64` values are modelled as `ℤ`; Go `/` and `%` on integers
    truncate toward zero, so they are modelled by `Int.tdiv` and `Int.tmod`.
  * Go floating-point values (`float32`/`float64`) are modelled as `ℚ` with
    exact arithmetic; `int64(x)` conversion of a float truncates toward zero
    and is modelled by `ratTrunc`.  `math.Pi` is modelled by the exact
    rational value of the `float64` constant.
  * The packages `directiontype`, `actionindex`, `actionplaymode`, `act`,
    `spr` and `graphic` of the repository are not part of the sources at
    hand; their pieces used here are modelled from the spec (see the doc
    comments starting with "Modelled from the spec").
-/

/-- SpriteScaleFactor, the fixed sprite-to-world scale constant of the
render system (source line 25: `SpriteScaleFactor = float32(100.0)`). -/
def SpriteScaleFactor : ℚ := 100

/-- FixedCameraDirection, the fixed camera-orientation constant
(source line 26: `FixedCameraDirection = 6`). -/
def FixedCameraDirection : ℕ := 6

/-- Exact rational value of the `float64` constant `math.Pi`. -/
def mathPi : ℚ := 7074237752028440 / 2251799813685248

/-- Truncation of a rational toward zero, the semantics of Go's conversion
of a floating-point value to `int64` (the numerator and denominator are
coprime with positive denominator, so truncating integer division of the
numerator by the denominator truncates the quotient toward zero). -/
def ratTrunc (q : ℚ) : ℤ := q.num.tdiv q.den

namespace actionindex

/-- Modelled from the spec: the action kinds StandBy, Dead and Sitting of
the missing `actionindex` package.  The spec fixes no numeric values, only
that they are distinct action kinds; the chosen numerals are arbitrary. -/
def StandBy : ℤ := 4

/-- Modelled from the spec: the Sitting action kind (see `StandBy`). -/
def Sitting : ℤ := 2

/-- Modelled from the spec: the Dead action kind (see `StandBy`). -/
def Dead : ℤ := 8

end actionindex

namespace actionplaymode

/-- Modelled from the spec: the Repeat play mode of the missing
`actionplaymode` package; the only play mode the core implements.  The
spec fixes no numeric value; 0 is arbitrary. -/
def Repeat : ℤ := 0

end actionplaymode

namespace act

/-- One textured quad within a frame (the `ActionFrameLayer` structure,
as described by the spec's data model: sprite-frame index (signed; negative
means "not drawn"), 2D scale, rotation angle in degrees, 2D position
offset, mirror flag). -/
structure ActionFrameLayer where
  SpriteFrameIndex : ℤ
  Pos : ℤ × ℤ
  Scale : ℚ × ℚ
  Angle : ℤ
  Mirrored : Bool
deriving DecidableEq

/-- One animation step (the `ActionFrame` structure): an ordered list
of layers and an optional ordered list of anchor positions. -/
structure ActionFrame where
  Layers : List ActionFrameLayer
  Positions : List (ℤ × ℤ)
deriving DecidableEq

/-- One animation (the `Action` structure): ordered frames, a base
delay weight, and the total duration in milliseconds decoded from the
file. -/
structure Action where
  Frames : List ActionFrame
  Delay : ℚ
  DurationMilliseconds : ℤ
deriving DecidableEq

/-- The decoded action file of one attachment (`ActionFile`): its list
of actions. -/
structure ActFile where
  Actions : List Action
deriving DecidableEq

end act

/-- One indexed bitmap of a sprite file (`spr.SpriteFrame`): width and
height in source pixels. -/
structure SprFrame where
  Width : ℤ
  Height : ℤ
deriving DecidableEq

/-- The decoded sprite file of one attachment (`spr.SpriteFile`): its
frames. -/
structure SprFile where
  Frames : List SprFrame
deriving DecidableEq

/-- The four composable sprite parts of a character
(`character.AttachmentShadow/Shield/Body/Head`). -/
inductive AttachmentType where
  | Shadow
  | Shield
  | Body
  | Head
deriving DecidableEq

/-- The per-entity state read by the render system (`entity.Character`):
facing direction, action kind, play mode, FPS multiplier, forced total
duration, shield presence, world position and the per-attachment bound
(action-file, sprite-file) pair.  The wall-clock elapsed time since
`AnimationStartedAt` is passed to the render functions as an explicit
parameter `sinceMs`. -/
structure CharState where
  Direction : ℤ
  ActionIndex : ℤ
  PlayMode : ℤ
  FPSMultiplier : ℚ
  ForcedDuration : ℤ
  HasShield : Bool
  PositionX : ℚ
  PositionY : ℚ
  Files : AttachmentType → act.ActFile × SprFile

/-- One emitted draw command (`rendercmd.SpriteRenderCommand`).  The
texture handle is identified by the sprite-frame index handed to the
texture provider. -/
structure SpriteRenderCommand where
  Scale : ℚ × ℚ
  Size : ℚ × ℚ
  Pos : ℚ × ℚ
  Offset : ℚ × ℚ
  RotationRadians : ℚ
  Texture : ℤ
  FlipVertically : Bool
deriving DecidableEq

/-- Combined direction index of the direction resolver (source line 88:
`direction := int(char.Direction) + directiontype.DirectionTable[FixedCameraDirection]%8`;
`%` binds tighter than `+` in Go, so only the table entry is reduced mod 8).
Modelled from the spec: the value `camEntry` of
`directiontype.DirectionTable[FixedCameraDirection]` is not in the sources
at hand, so it is passed as a parameter. -/
def combinedDirection (facing camEntry : ℤ) : ℤ :=
  facing + camEntry.tmod 8

/-- Behind flag of the direction resolver (source line 89:
`behind := direction > 1 && direction < 6`). -/
def behind (facing camEntry : ℤ) : Bool :=
  decide (1 < combinedDirection facing camEntry) &&
    decide (combinedDirection facing camEntry < 6)

/-- act.Action list bound to one attachment (source line 116:
`char.Files[elem].ACT.Actions`). -/
def attachActions (char : CharState) (elem : AttachmentType) : List act.Action :=
  (char.Files elem).1.Actions

/-- Index into the action array (source line 120:
`idx := (int(char.ActionIndex) + (int(char.Direction)+directiontype.DirectionTable[FixedCameraDirection])%8) % len(actions)`). -/
def resolveActionIdx (camEntry : ℤ) (char : CharState) (elem : AttachmentType) : ℤ :=
  (char.ActionIndex + (char.Direction + camEntry).tmod 8).tmod
    ((attachActions char elem).length : ℤ)

/-- The action selected for an attachment (source line 121:
`action := actions[idx]`). -/
def resolvedAction (camEntry : ℤ) (char : CharState) (elem : AttachmentType) : act.Action :=
  (attachActions char elem).getD (resolveActionIdx camEntry char elem).toNat
    ⟨[], 0, 0⟩

/-- Per-frame duration of the animation clock (source lines 123-129):
`timeNeededForOneFrame := int64(float64(action.Delay) * (1.0/char.FPSMultiplier))`,
overridden by `int64(char.ForcedDuration) / frameCount` when
`char.ForcedDuration != 0`, then clamped from below by 100 via
`int64(math.Max(float64(timeNeededForOneFrame), 100))`. -/
def perFrameDuration (action : act.Action) (char : CharState) : ℤ :=
  max
    (if char.ForcedDuration ≠ 0 then
      char.ForcedDuration.tdiv (action.Frames.length : ℤ)
    else
      ratTrunc (action.Delay * (1 / char.FPSMultiplier)))
    100

/-- Frame index selected by the animation clock (source lines 130-143):
`realIndex := elapsedTime / timeNeededForOneFrame`; under play mode
Repeat the index is `realIndex % frameCount`, under any other play mode it
stays 0; finally a frame count of exactly 3 forces index 0 (the
"doridori" suppression). -/
def frameIndexFor (action : act.Action) (playMode elapsedTime timeNeeded : ℤ) : ℤ :=
  let realIndex := elapsedTime.tdiv timeNeeded
  let fi : ℤ :=
    if playMode = actionplaymode.Repeat then
      realIndex.tmod (action.Frames.length : ℤ)
    else 0
  if action.Frames.length = 3 then 0 else fi

/-- The frame the attachment draws this tick (source line 146:
`frame = action.Frames[frameIndex]`), for the given elapsed time. -/
def resolvedFrame (camEntry : ℤ) (char : CharState) (elem : AttachmentType)
    (elapsedTime : ℤ) : act.ActionFrame :=
  let action := resolvedAction camEntry char elem
  action.Frames.getD
    (frameIndexFor action char.PlayMode elapsedTime
      (perFrameDuration action char)).toNat
    ⟨[], []⟩

/-- One layer's draw command (source lines 180-218, `renderLayer`): skips
layers with a negative sprite-frame index; otherwise sizes the quad from
the sprite frame's pixel dimensions, the layer scale, `SpriteScaleFactor`
and the pixel-size constant; converts the angle to radians; offsets by
`(layer.Position + offset) * OnePixelSize * SpriteScaleFactor`.
Modelled from the spec: the value of the constant `graphic.OnePixelSize`
is not in the sources at hand, so it is passed as the parameter `ops`. -/
def renderLayer (char : CharState) (layer : act.ActionFrameLayer) (spr : SprFile)
    (offset : ℚ × ℚ) (ops : ℚ) : Option SpriteRenderCommand :=
  if layer.SpriteFrameIndex < 0 then none
  else
    let frame := spr.Frames.getD layer.SpriteFrameIndex.toNat ⟨0, 0⟩
    let width := (frame.Width : ℚ) * SpriteScaleFactor * (layer.Scale.1 * ops)
    let height := (frame.Height : ℚ) * SpriteScaleFactor * (layer.Scale.2 * ops)
    let rot := (layer.Angle : ℚ) * (mathPi / 180)
    some
      ⟨layer.Scale, (width, height), (char.PositionX, char.PositionY),
        (((layer.Pos.1 : ℚ) + offset.1) * ops * SpriteScaleFactor,
          ((layer.Pos.2 : ℚ) + offset.2) * ops * SpriteScaleFactor),
        rot, layer.SpriteFrameIndex, layer.Mirrored⟩

/-- Result of rendering one attachment: the emitted commands, the offset
accumulator after the call (the source mutates `*offset`), and the
animation delay written to the entity (`none` when the early returns of
the source skip the write). -/
structure RenderStep where
  cmds : List SpriteRenderCommand
  offset : ℚ × ℚ
  delay : Option ℤ
deriving DecidableEq

/-- Rendering of one attachment (source lines 108-178, `renderAttachment`):
returns early on an empty action table; selects the action by
`resolveActionIdx` and the frame by `frameIndexFor`; a frame with no
layers resets the offset accumulator to zero and emits nothing; when the
frame has a Positions entry and the attachment is neither Body nor Shield
the draw position is the accumulator minus the anchor, otherwise zero;
every layer with a non-negative sprite-frame index emits one command; a
frame with a Positions entry saves its anchor into the accumulator; the
entity's animation delay is set to the action's `DurationMilliseconds`
(in milliseconds, source line 177). -/
def renderAttachment (camEntry : ℤ) (ops : ℚ) (sinceMs dt : ℤ)
    (char : CharState) (elem : AttachmentType) (offset : ℚ × ℚ) : RenderStep :=
  if (attachActions char elem).length = 0 then ⟨[], offset, none⟩
  else
    let action := resolvedAction camEntry char elem
    let elapsedTime := sinceMs - dt
    let frame := resolvedFrame camEntry char elem elapsedTime
    if frame.Layers.length = 0 then ⟨[], (0, 0), none⟩
    else
      let anchor := frame.Positions.getD 0 (0, 0)
      let position : ℚ × ℚ :=
        if 0 < frame.Positions.length ∧ elem ≠ AttachmentType.Body ∧
            elem ≠ AttachmentType.Shield then
          (offset.1 - (anchor.1 : ℚ), offset.2 - (anchor.2 : ℚ))
        else (0, 0)
      let cmds := frame.Layers.filterMap fun layer =>
        if layer.SpriteFrameIndex < 0 then none
        else renderLayer char layer (char.Files elem).2 position ops
      let newOffset : ℚ × ℚ :=
        if 0 < frame.Positions.length then ((anchor.1 : ℚ), (anchor.2 : ℚ))
        else offset
      ⟨cmds, newOffset, some action.DurationMilliseconds⟩

/-- Rendering of one character (source lines 85-106, `renderCharacter`):
shadow first unless the action kind is Dead or Sitting; the shield before
body and head when `behind` holds and after them otherwise, and only when
a shield is equipped and the action kind is StandBy; body then head
always, threading the offset accumulator through the calls; the emitted
commands concatenate in call order. -/
def renderCharacter (camEntry : ℤ) (ops : ℚ) (sinceMs dt : ℤ)
    (char : CharState) : List SpriteRenderCommand :=
  let offset0 : ℚ × ℚ := (0, 0)
  let b := behind char.Direction camEntry
  let renderShield := char.HasShield &&
    decide (char.ActionIndex = actionindex.StandBy)
  let s1 :=
    if char.ActionIndex ≠ actionindex.Dead ∧
        char.ActionIndex ≠ actionindex.Sitting then
      renderAttachment camEntry ops sinceMs dt char AttachmentType.Shadow offset0
    else ⟨[], offset0, none⟩
  let s2 :=
    if b && renderShield then
      renderAttachment camEntry ops sinceMs dt char AttachmentType.Shield s1.offset
    else ⟨[], s1.offset, none⟩
  let s3 := renderAttachment camEntry ops sinceMs dt char AttachmentType.Body s2.offset
  let s4 := renderAttachment camEntry ops sinceMs dt char AttachmentType.Head s3.offset
  let s5 :=
    if !b && renderShield then
      renderAttachment camEntry ops sinceMs dt char AttachmentType.Shield s4.offset
    else ⟨[], s4.offset, none⟩
  s1.cmds ++ s2.cmds ++ s3.cmds ++ s4.cmds ++ s5.cmds

/-! Concrete sample assets, used by the evaluation witnesses below. -/

/-- Sample layer: sprite frame 0 at position (3, 4), unit scale. -/
def sampleLayer : act.ActionFrameLayer := ⟨0, (3, 4), (1, 1), 0, false⟩

/-- Sample frame with one layer and no anchor positions. -/
def sampleFrame : act.ActionFrame := ⟨[sampleLayer], []⟩

/-- Sample one-frame action with delay weight 200 and a decoded total
duration of 7 milliseconds. -/
def sampleAction : act.Action := ⟨[sampleFrame], 200, 7⟩

/-- Sample action file holding just `sampleAction`. -/
def sampleAct : act.ActFile := ⟨[sampleAction]⟩

/-- Sample three-frame action (the "doridori" shape) with delay weight
100. -/
def sampleAction3 : act.Action := ⟨[sampleFrame, sampleFrame, sampleFrame], 100, 9⟩

/-- Sample sprite file with one 2-by-3 frame. -/
def sampleSpr : SprFile := ⟨[⟨2, 3⟩]⟩

/-- Sample character: facing 2, StandBy, Repeat play mode, FPS multiplier
1, no forced duration, shield equipped, every attachment bound to the
sample assets. -/
def sampleChar : CharState :=
  ⟨2, actionindex.StandBy, actionplaymode.Repeat, 1, 0, true, 0, 0,
    fun _ => (sampleAct, sampleSpr)⟩

/-- C1 counterexample: at camera entry 1 and facing 7 the combined index
is 8, outside [0,8); and at camera entry 0 and facing 5 the behind flag is
true although 1 < 5 < 5 fails (the source tests `direction < 6`, not
`direction < 5`). -/
theorem c1_counterexample :
    combinedDirection 7 1 = 8 ∧ ¬ combinedDirection 7 1 < 8 ∧
    behind 5 0 = true ∧
    ¬ (1 < combinedDirection 5 0 ∧ combinedDirection 5 0 < 5) := by decide

/-- C1 (amended): for every camera direction-table entry ≥ 0 and facing in
0..7, the combined direction index lies in [0,15) (only the table entry is
reduced mod 8, the sum is not), and the behind flag holds iff the index is
strictly between 1 and 6. -/
theorem c1_direction_resolver (facing camEntry : ℤ)
    (h0 : 0 ≤ facing) (h1 : facing < 8) (h2 : 0 ≤ camEntry) :
    0 ≤ combinedDirection facing camEntry ∧
    combinedDirection facing camEntry < 15 ∧
    (behind facing camEntry = true ↔
      1 < combinedDirection facing camEntry ∧
        combinedDirection facing camEntry < 6) := by
  have ht0 : 0 ≤ camEntry.tmod 8 := Int.tmod_nonneg _ h2
  have ht1 : camEntry.tmod 8 < 8 := Int.tmod_lt_of_pos _ (by omega)
  unfold behind combinedDirection
  refine ⟨by omega, by omega, ?_⟩
  simp only [Bool.and_eq_true, decide_eq_true_eq]

/-- C1 witness: the amended statement evaluated at facing 2 and camera
entry 3. -/
theorem c1_direction_resolver_witness :
    0 ≤ combinedDirection 2 3 ∧ combinedDirection 2 3 < 15 ∧
    (behind 2 3 = true ↔
      1 < combinedDirection 2 3 ∧ combinedDirection 2 3 < 6) :=
  c1_direction_resolver 2 3 (by decide) (by decide) (by decide)

/-- C4: for a non-empty action table the index selected for an attachment
is the composite index (action kind plus the mod-8 reduced sum of facing
and camera entry) reduced modulo the table length; it lies in [0, L), so
the access `actions[idx]` is in range, and the selected action is the
element at that index. -/
theorem c4_action_index_in_range (camEntry : ℤ) (char : CharState)
    (elem : AttachmentType)
    (hL : 0 < (attachActions char elem).length)
    (hA : 0 ≤ char.ActionIndex) (hD : 0 ≤ char.Direction) (hC : 0 ≤ camEntry) :
    resolveActionIdx camEntry char elem =
      (char.ActionIndex + (char.Direction + camEntry).tmod 8).tmod
        ((attachActions char elem).length : ℤ) ∧
    0 ≤ resolveActionIdx camEntry char elem ∧
    resolveActionIdx camEntry char elem <
      ((attachActions char elem).length : ℤ) ∧
    (resolveActionIdx camEntry char elem).toNat <
      (attachActions char elem).length ∧
    resolvedAction camEntry char elem =
      (attachActions char elem).getD
        (resolveActionIdx camEntry char elem).toNat ⟨[], 0, 0⟩ := by
  have hi : 0 ≤ char.ActionIndex + (char.Direction + camEntry).tmod 8 :=
    add_nonneg hA (Int.tmod_nonneg _ (add_nonneg hD hC))
  have hLZ : (0 : ℤ) < ((attachActions char elem).length : ℤ) := by
    exact_mod_cast hL
  have hb0 : 0 ≤ resolveActionIdx camEntry char elem :=
    Int.tmod_nonneg _ hi
  have hb1 : resolveActionIdx camEntry char elem <
      ((attachActions char elem).length : ℤ) :=
    Int.tmod_lt_of_pos _ hLZ
  exact ⟨rfl, hb0, hb1, by omega, rfl⟩

/-- C4 witness: the statement evaluated on the sample character's Body
attachment with camera entry 0. -/
theorem c4_action_index_in_range_witness :
    resolveActionIdx 0 sampleChar AttachmentType.Body =
      (sampleChar.ActionIndex +
        (sampleChar.Direction + 0).tmod 8).tmod
        ((attachActions sampleChar AttachmentType.Body).length : ℤ) ∧
    0 ≤ resolveActionIdx 0 sampleChar AttachmentType.Body ∧
    resolveActionIdx 0 sampleChar AttachmentType.Body <
      ((attachActions sampleChar AttachmentType.Body).length : ℤ) ∧
    (resolveActionIdx 0 sampleChar AttachmentType.Body).toNat <
      (attachActions sampleChar AttachmentType.Body).length ∧
    resolvedAction 0 sampleChar AttachmentType.Body =
      (attachActions sampleChar AttachmentType.Body).getD
        (resolveActionIdx 0 sampleChar AttachmentType.Body).toNat ⟨[], 0, 0⟩ :=
  c4_action_index_in_range 0 sampleChar AttachmentType.Body
    (by decide) (by decide) (by decide) (by decide)

/-- C5: the per-frame duration is the forced duration divided (truncating)
by the frame count when a forced duration is set, and the truncated
Delay ÷ FPS-multiplier quotient otherwise, in both cases clamped from
below by 100; it is never less than 100. -/
theorem c5_per_frame_duration (action : act.Action) (char : CharState) :
    (char.ForcedDuration ≠ 0 →
      perFrameDuration action char =
        max (char.ForcedDuration.tdiv (action.Frames.length : ℤ)) 100) ∧
    (char.ForcedDuration = 0 →
      perFrameDuration action char =
        max (ratTrunc (action.Delay * (1 / char.FPSMultiplier))) 100) ∧
    100 ≤ perFrameDuration action char := by
  refine ⟨fun h => ?_, fun h => ?_, le_max_right _ _⟩
  · unfold perFrameDuration
    rw [if_pos h]
  · unfold perFrameDuration
    rw [if_neg (by simp [h])]

/-- C5 witness: the sample character has no forced duration, FPS
multiplier 1 and delay weight 200, so the per-frame duration is 200 and
lies above the 100 floor. -/
theorem c5_per_frame_duration_witness :
    perFrameDuration sampleAction sampleChar = 200 ∧
    100 ≤ perFrameDuration sampleAction sampleChar :=
  ⟨by simp [perFrameDuration, ratTrunc, sampleAction, sampleChar],
    (c5_per_frame_duration sampleAction sampleChar).2.2⟩

/-- C6: an action with exactly 3 frames always selects frame index 0,
whatever the play mode, elapsed time and per-frame duration (hence FPS
multiplier). -/
theorem c6_three_frame_override (action : act.Action)
    (playMode elapsedTime timeNeeded : ℤ)
    (h3 : action.Frames.length = 3) :
    frameIndexFor action playMode elapsedTime timeNeeded = 0 := by
  unfold frameIndexFor
  simp [h3]

/-- C6 witness: the three-frame sample action selects frame 0 at elapsed
time 12345 under Repeat. -/
theorem c6_three_frame_override_witness :
    sampleAction3.Frames.length = 3 ∧
    frameIndexFor sampleAction3 actionplaymode.Repeat 12345 100 = 0 :=
  ⟨by decide,
    c6_three_frame_override sampleAction3 actionplaymode.Repeat 12345 100
      (by decide)⟩

/-- C9: under any play mode other than Repeat, an action whose frame count
is not 3 selects frame index 0 regardless of elapsed time: the
unimplemented play modes silently render the first frame. -/
theorem c9_other_play_modes_first_frame (action : act.Action)
    (playMode elapsedTime timeNeeded : ℤ)
    (hpm : playMode ≠ actionplaymode.Repeat)
    (h3 : action.Frames.length ≠ 3) :
    frameIndexFor action playMode elapsedTime timeNeeded = 0 := by
  unfold frameIndexFor
  simp [hpm, h3]

/-- C9 witness: play mode 1 (not Repeat) on the one-frame sample action at
elapsed time 5000 selects frame 0. -/
theorem c9_other_play_modes_first_frame_witness :
    (1 : ℤ) ≠ actionplaymode.Repeat ∧ sampleAction.Frames.length ≠ 3 ∧
    frameIndexFor sampleAction 1 5000 100 = 0 :=
  ⟨by decide, by decide,
    c9_other_play_modes_first_frame sampleAction 1 5000 100 (by decide)
      (by decide)⟩

/-- C10: with non-negative elapsed time and a non-empty frame list, the
selected frame index lies in [0, N) for every play mode, so the frame
lookup `action.Frames[frameIndex]` is in range. -/
theorem c10_frame_lookup_in_range (action : act.Action) (char : CharState)
    (e : ℤ) (he : 0 ≤ e) (hN : 0 < action.Frames.length) :
    0 ≤ frameIndexFor action char.PlayMode e (perFrameDuration action char) ∧
    frameIndexFor action char.PlayMode e (perFrameDuration action char) <
      (action.Frames.length : ℤ) ∧
    (frameIndexFor action char.PlayMode e
      (perFrameDuration action char)).toNat < action.Frames.length := by
  have hT : (100 : ℤ) ≤ perFrameDuration action char := le_max_right _ _
  have hri : 0 ≤ e.tdiv (perFrameDuration action char) :=
    Int.tdiv_nonneg he (by omega)
  have hNZ : (0 : ℤ) < (action.Frames.length : ℤ) := by exact_mod_cast hN
  have hm0 : 0 ≤ (e.tdiv (perFrameDuration action char)).tmod
      (action.Frames.length : ℤ) := Int.tmod_nonneg _ hri
  have hm1 : (e.tdiv (perFrameDuration action char)).tmod
      (action.Frames.length : ℤ) < (action.Frames.length : ℤ) :=
    Int.tmod_lt_of_pos _ hNZ
  unfold frameIndexFor
  dsimp only
  split_ifs <;> exact ⟨by omega, by omega, by omega⟩

/-- C10 witness: the statement evaluated on the sample character and
sample action at elapsed time 250. -/
theorem c10_frame_lookup_in_range_witness :
    0 ≤ frameIndexFor sampleAction sampleChar.PlayMode 250
      (perFrameDuration sampleAction sampleChar) ∧
    frameIndexFor sampleAction sampleChar.PlayMode 250
      (perFrameDuration sampleAction sampleChar) <
      (sampleAction.Frames.length : ℤ) ∧
    (frameIndexFor sampleAction sampleChar.PlayMode 250
      (perFrameDuration sampleAction sampleChar)).toNat <
      sampleAction.Frames.length :=
  c10_frame_lookup_in_range sampleAction sampleChar 250 (by decide) (by decide)

/-- C7 counterexample: the three-frame sample action under Repeat at
elapsed time 100 with per-frame duration 100 selects frame 0 (the
"doridori" override), while the claimed candidate-mod-frame-count value is
(100 tdiv 100) tmod 3 = 1. -/
theorem c7_counterexample :
    0 < sampleAction3.Frames.length ∧
    frameIndexFor sampleAction3 actionplaymode.Repeat 100 100 = 0 ∧
    ((100 : ℤ).tdiv 100).tmod (sampleAction3.Frames.length : ℤ) = 1 ∧
    (0 : ℤ) ≠ 1 := by decide

/-- C7 (amended): under Repeat play mode, for an action with N > 0 frames
and N ≠ 3 (the 3-frame "doridori" case is forced to index 0 instead) and
non-negative elapsed time e, the selected frame index is
(e tdiv per-frame duration) tmod N, and advancing e by exactly one period
N × per-frame duration yields the same frame index. -/
theorem c7_repeat_periodic (action : act.Action) (char : CharState) (e : ℤ)
    (hpm : char.PlayMode = actionplaymode.Repeat)
    (hN : 0 < action.Frames.length) (h3 : action.Frames.length ≠ 3)
    (he : 0 ≤ e) :
    frameIndexFor action char.PlayMode e (perFrameDuration action char) =
      (e.tdiv (perFrameDuration action char)).tmod
        (action.Frames.length : ℤ) ∧
    frameIndexFor action char.PlayMode
        (e + (action.Frames.length : ℤ) * perFrameDuration action char)
        (perFrameDuration action char) =
      frameIndexFor action char.PlayMode e (perFrameDuration action char) := by
  have hT : (100 : ℤ) ≤ perFrameDuration action char := le_max_right _ _
  have hNZ : (0 : ℤ) < (action.Frames.length : ℤ) := by exact_mod_cast hN
  have hT0 : (0 : ℤ) < perFrameDuration action char := by omega
  have hsum : 0 ≤ e + (action.Frames.length : ℤ) * perFrameDuration action char := by
    have := mul_nonneg hNZ.le hT0.le
    omega
  have hkey : (e + (action.Frames.length : ℤ) *
      perFrameDuration action char).tdiv (perFrameDuration action char) =
      e.tdiv (perFrameDuration action char) + (action.Frames.length : ℤ) := by
    rw [Int.tdiv_eq_ediv hsum hT0.le, Int.tdiv_eq_ediv he hT0.le]
    exact Int.add_mul_ediv_right e _ hT0.ne'
  have hx : 0 ≤ e.tdiv (perFrameDuration action char) :=
    Int.tdiv_nonneg he hT0.le
  constructor
  · unfold frameIndexFor
    simp [hpm, h3]
  · unfold frameIndexFor
    simp only [hpm, h3, if_true, if_false, if_neg h3, if_pos rfl]
    rw [hkey]
    rw [Int.tmod_eq_emod (by omega) hNZ.le, Int.tmod_eq_emod hx hNZ.le]
    simp

/-- C7 witness: the amended statement evaluated on the one-frame sample
action and character at elapsed time 250: the index is 0 and stays 0 after
one full period. -/
theorem c7_repeat_periodic_witness :
    frameIndexFor sampleAction sampleChar.PlayMode 250
      (perFrameDuration sampleAction sampleChar) =
      ((250 : ℤ).tdiv (perFrameDuration sampleAction sampleChar)).tmod
        (sampleAction.Frames.length : ℤ) ∧
    frameIndexFor sampleAction sampleChar.PlayMode
        (250 + (sampleAction.Frames.length : ℤ) *
          perFrameDuration sampleAction sampleChar)
        (perFrameDuration sampleAction sampleChar) =
      frameIndexFor sampleAction sampleChar.PlayMode 250
        (perFrameDuration sampleAction sampleChar) :=
  c7_repeat_periodic sampleAction sampleChar 250 (by decide) (by decide)
    (by decide) (by decide)

/-- C8 counterexample: on the sample character's Body attachment the
animation clock's per-frame duration is 200, but the recorded animation
delay is the action's decoded DurationMilliseconds value 7: the two
disagree, refuting the claim that the recorded delay equals the computed
per-frame duration. -/
theorem c8_counterexample :
    (renderAttachment 0 1 0 0 sampleChar AttachmentType.Body (0, 0)).delay =
      some 7 ∧
    perFrameDuration sampleAction sampleChar = 200 ∧ (7 : ℤ) ≠ 200 := by
  refine ⟨?_, ?_, by decide⟩
  · simp [renderAttachment, renderLayer, resolvedFrame, resolvedAction,
      attachActions, resolveActionIdx, frameIndexFor, perFrameDuration,
      ratTrunc, sampleChar, sampleAct, sampleAction, sampleFrame, sampleLayer,
      actionindex.StandBy, actionplaymode.Repeat]
  · simp [perFrameDuration, ratTrunc, sampleAction, sampleChar]

/-- C8 (amended): whenever an attachment is rendered with a non-empty
action table and a resolved frame that has at least one layer, the
recorded animation delay is the resolved action's DurationMilliseconds
field (as a milliseconds duration) — not the per-frame duration computed
by the animation clock. -/
theorem c8_animation_delay_recorded (camEntry : ℤ) (ops : ℚ) (sinceMs dt : ℤ)
    (char : CharState) (elem : AttachmentType) (offset : ℚ × ℚ)
    (hA : (attachActions char elem).length ≠ 0)
    (hL : (resolvedFrame camEntry char elem (sinceMs - dt)).Layers.length ≠ 0) :
    (renderAttachment camEntry ops sinceMs dt char elem offset).delay =
      some (resolvedAction camEntry char elem).DurationMilliseconds := by
  unfold renderAttachment
  simp [hA, hL]

/-- C8 witness: the amended statement evaluated on the sample character's
Head attachment with wall-clock 5 ms and tick delta 5. -/
theorem c8_animation_delay_recorded_witness :
    (renderAttachment 0 1 5 5 sampleChar AttachmentType.Head (0, 0)).delay =
      some (resolvedAction 0 sampleChar AttachmentType.Head).DurationMilliseconds :=
  c8_animation_delay_recorded 0 1 5 5 sampleChar AttachmentType.Head (0, 0)
    (by decide)
    (by simp [resolvedFrame, resolvedAction, attachActions, resolveActionIdx,
      frameIndexFor, perFrameDuration, ratTrunc, sampleChar, sampleAct,
      sampleAction, sampleFrame, sampleLayer, actionindex.StandBy,
      actionplaymode.Repeat])

/-- Body action file for the offset-chaining scenario: one action, one
frame with one layer at raw position (1, 2) and anchor Positions[0] =
(10, 5). -/
def c2BodyAct : act.ActFile :=
  ⟨[⟨[⟨[⟨0, (1, 2), (1, 1), 0, false⟩], [(10, 5)]⟩], 0, 0⟩]⟩

/-- Head action file for the offset-chaining scenario: one action, one
frame with one layer at raw position (0, 0) and no Positions entry. -/
def c2HeadAct : act.ActFile :=
  ⟨[⟨[⟨[⟨0, (0, 0), (1, 1), 0, false⟩], []⟩], 0, 0⟩]⟩

/-- Character for the offset-chaining scenario: facing 0, action kind 0,
Repeat play mode, FPS multiplier 1, no forced duration, no shield; Body
and Head bound to the scenario action files. -/
def charC2 : CharState :=
  ⟨0, 0, actionplaymode.Repeat, 1, 0, false, 0, 0,
    fun e =>
      match e with
      | AttachmentType.Body => (c2BodyAct, sampleSpr)
      | AttachmentType.Head => (c2HeadAct, sampleSpr)
      | _ => (sampleAct, sampleSpr)⟩

/-- C2 counterexample: with pixel size 1/100 (so the offset scale factor
is exactly 1), a Body frame with anchor (10, 5) followed by a Head frame
with no Positions and a single layer at raw position (0, 0) emits the Head
command at offset (0, 0) — not at (0, 0) + (10, 5) = (10, 5) as the claim
requires. -/
theorem c2_counterexample :
    (renderAttachment 0 (1/100) 0 0 charC2 AttachmentType.Body (0, 0)).offset =
      (10, 5) ∧
    (renderAttachment 0 (1/100) 0 0 charC2 AttachmentType.Head (10, 5)).cmds.map
      SpriteRenderCommand.Offset = [(0, 0)] ∧
    ¬ ([((0 : ℚ), (0 : ℚ))] : List (ℚ × ℚ)) = [((10 : ℚ), (5 : ℚ))] := by
  refine ⟨?_, ?_, by simp [Prod.ext_iff]⟩
  · simp [renderAttachment, renderLayer, resolvedFrame, resolvedAction,
      attachActions, resolveActionIdx, frameIndexFor, perFrameDuration,
      ratTrunc, charC2, c2BodyAct, sampleSpr, actionplaymode.Repeat]
  · simp [renderAttachment, renderLayer, resolvedFrame, resolvedAction,
      attachActions, resolveActionIdx, frameIndexFor, perFrameDuration,
      ratTrunc, charC2, c2HeadAct, sampleSpr, actionplaymode.Repeat]

/-- C2 (amended): when the Body's resolved frame has anchor Positions[0] =
(10, 5) and at least one layer, rendering the Body stores (10, 5) in the
offset accumulator; a following Head whose resolved frame has no
Positions entry emits exactly the commands it would emit with a zero
accumulator — its layer positions are shifted by (0, 0), not by (10, 5)
(the stored anchor only shifts a subsequent attachment frame that itself
has a Positions entry). -/
theorem c2_offset_chain (camEntry : ℤ) (ops : ℚ) (sinceMs dt : ℤ)
    (char : CharState) (offset : ℚ × ℚ)
    (hbA : (attachActions char AttachmentType.Body).length ≠ 0)
    (hbL : (resolvedFrame camEntry char AttachmentType.Body
      (sinceMs - dt)).Layers.length ≠ 0)
    (hbP : 0 < (resolvedFrame camEntry char AttachmentType.Body
      (sinceMs - dt)).Positions.length)
    (hbAnchor : (resolvedFrame camEntry char AttachmentType.Body
      (sinceMs - dt)).Positions.getD 0 (0, 0) = (10, 5))
    (hhP : (resolvedFrame camEntry char AttachmentType.Head
      (sinceMs - dt)).Positions = []) :
    (renderAttachment camEntry ops sinceMs dt char AttachmentType.Body
      offset).offset = (10, 5) ∧
    (renderAttachment camEntry ops sinceMs dt char AttachmentType.Head
      (renderAttachment camEntry ops sinceMs dt char AttachmentType.Body
        offset).offset).cmds =
      (renderAttachment camEntry ops sinceMs dt char AttachmentType.Head
        (0, 0)).cmds := by
  have h0 := hbAnchor
  rw [List.getD_eq_getElem _ _ hbP] at h0
  have hbody : (renderAttachment camEntry ops sinceMs dt char
      AttachmentType.Body offset).offset = (10, 5) := by
    unfold renderAttachment
    simp [hbA, hbL, hbP, h0]
  refine ⟨hbody, ?_⟩
  by_cases hhA : (attachActions char AttachmentType.Head).length = 0
  · unfold renderAttachment
    simp [hhA]
  · by_cases hhL : (resolvedFrame camEntry char AttachmentType.Head
        (sinceMs - dt)).Layers.length = 0
    · unfold renderAttachment
      simp [hhA, hhL]
    · unfold renderAttachment
      simp [hhA, hhL, hhP]

/-- C2 witness: the amended statement evaluated on the offset-chaining
scenario character with pixel size 1/100. -/
theorem c2_offset_chain_witness :
    (renderAttachment 0 (1/100) 0 0 charC2 AttachmentType.Body
      (0, 0)).offset = (10, 5) ∧
    (renderAttachment 0 (1/100) 0 0 charC2 AttachmentType.Head
      (renderAttachment 0 (1/100) 0 0 charC2 AttachmentType.Body
        (0, 0)).offset).cmds =
      (renderAttachment 0 (1/100) 0 0 charC2 AttachmentType.Head
        (0, 0)).cmds :=
  c2_offset_chain 0 (1/100) 0 0 charC2 (0, 0)
    (by decide)
    (by simp [resolvedFrame, resolvedAction, attachActions, resolveActionIdx,
      frameIndexFor, perFrameDuration, ratTrunc, charC2, c2BodyAct,
      actionplaymode.Repeat])
    (by simp [resolvedFrame, resolvedAction, attachActions, resolveActionIdx,
      frameIndexFor, perFrameDuration, ratTrunc, charC2, c2BodyAct,
      actionplaymode.Repeat])
    (by simp [resolvedFrame, resolvedAction, attachActions, resolveActionIdx,
      frameIndexFor, perFrameDuration, ratTrunc, charC2, c2BodyAct,
      actionplaymode.Repeat])
    (by simp [resolvedFrame, resolvedAction, attachActions, resolveActionIdx,
      frameIndexFor, perFrameDuration, ratTrunc, charC2, c2HeadAct,
      actionplaymode.Repeat])

/-- Draw order of one character's attachments as the spec states it: the
Shadow block first, then — when the behind flag holds — Shield before
Body and Head, otherwise Shield after Body and Head, threading the offset
accumulator through the calls in that order.  This is the spec-side
ordering to be compared with `renderCharacter`. -/
def specDrawOrder (camEntry : ℤ) (ops : ℚ) (sinceMs dt : ℤ)
    (char : CharState) : List SpriteRenderCommand :=
  let s1 := renderAttachment camEntry ops sinceMs dt char AttachmentType.Shadow (0, 0)
  if behind char.Direction camEntry then
    let s2 := renderAttachment camEntry ops sinceMs dt char AttachmentType.Shield s1.offset
    let s3 := renderAttachment camEntry ops sinceMs dt char AttachmentType.Body s2.offset
    let s4 := renderAttachment camEntry ops sinceMs dt char AttachmentType.Head s3.offset
    s1.cmds ++ s2.cmds ++ s3.cmds ++ s4.cmds
  else
    let s3 := renderAttachment camEntry ops sinceMs dt char AttachmentType.Body s1.offset
    let s4 := renderAttachment camEntry ops sinceMs dt char AttachmentType.Head s3.offset
    let s5 := renderAttachment camEntry ops sinceMs dt char AttachmentType.Shield s4.offset
    s1.cmds ++ s3.cmds ++ s4.cmds ++ s5.cmds

/-- C3: for a character with a shield equipped and action kind StandBy,
the emitted command sequence is the Shadow block, then the Shield, Body
and Head blocks in that order when the behind flag holds, and the Body,
Head and Shield blocks in that order otherwise. -/
theorem c3_draw_order (camEntry : ℤ) (ops : ℚ) (sinceMs dt : ℤ)
    (char : CharState)
    (hS : char.HasShield = true)
    (hSB : char.ActionIndex = actionindex.StandBy) :
    renderCharacter camEntry ops sinceMs dt char =
      specDrawOrder camEntry ops sinceMs dt char := by
  have hD : char.ActionIndex ≠ actionindex.Dead := by
    rw [hSB]; decide
  have hSi : char.ActionIndex ≠ actionindex.Sitting := by
    rw [hSB]; decide
  unfold renderCharacter specDrawOrder
  cases hb : behind char.Direction camEntry <;>
    simp [hS, hSB, hb, actionindex.StandBy, actionindex.Dead,
      actionindex.Sitting]

/-- C3 witness: the sample character (shield equipped, StandBy, facing 2
with camera entry 0, so the behind flag holds) renders in the spec's
order. -/
theorem c3_draw_order_witness :
    sampleChar.HasShield = true ∧
    sampleChar.ActionIndex = actionindex.StandBy ∧
    behind sampleChar.Direction 0 = true ∧
    renderCharacter 0 1 0 0 sampleChar = specDrawOrder 0 1 0 0 sampleChar :=
  ⟨by decide, by decide, by decide,
    c3_draw_order 0 1 0 0 sampleChar (by decide) (by decide)⟩
